import Mathlib

/-!
Shallow embedding of src/earthquake_detection.py.

The Python module defines a class EarthquakeDetector with methods
new_samples, peak_detect, is_peak and check_for_quake, built on numpy
arrays and scipy.signal.find_peaks_cwt.  We model:

* integer sample arrays as List Int (the docstring of new_samples says
  samples is an ndarray of integer samples);
* Python and numpy exceptions as explicit PyError values;
* scipy.signal.find_peaks_cwt as a parameter cwt of the detector
  configuration: it is an external, deterministic library routine taking
  the sample array and the widths argument and returning a list of
  nonnegative indices into its input;
* the alert callback as a counter of invocations.

Statements of the Python method bodies are translated in order; when a
statement raises, the state mutated by the earlier statements persists,
so the stateful methods return a pair of the state after the call and
the exception raised, if any.
-/

set_option autoImplicit false

namespace EarthquakeDetection

universe u

/-- The Python and numpy exception kinds the translated code can raise. -/
inductive PyError
  | IndexError
  | ValueError
  | TypeError
  deriving DecidableEq

instance {ε α : Type u} [DecidableEq ε] [DecidableEq α] : DecidableEq (Except ε α) := fun
  | .error e, .error f =>
    if h : e = f then .isTrue (congrArg Except.error h)
    else .isFalse (fun hc => h (Except.error.inj hc))
  | .error _, .ok _ => .isFalse (fun hc => Except.noConfusion hc)
  | .ok _, .error _ => .isFalse (fun hc => Except.noConfusion hc)
  | .ok a, .ok b =>
    if h : a = b then .isTrue (congrArg Except.ok h)
    else .isFalse (fun hc => h (Except.ok.inj hc))

/-- Detector configuration fixed at construction (lines 15-28 of the
source): sample_rate_hz, and the external scipy.signal.find_peaks_cwt
routine modelled as an unspecified pure function from the sample array
and the widths argument to a list of peak indices. -/
structure Config where
  sample_rate : Nat
  cwt : List Int → Nat → List Nat

/-- month_window_size = 30 * 24 * 60 * 60 * sample_rate (line 28). -/
def month_window_size (cfg : Config) : Nat :=
  30 * 24 * 60 * 60 * cfg.sample_rate

/-- Mutable state of an EarthquakeDetector: the seismographs list (none
for a channel never written, matching the initial [None] entries), the
confirmed_peak_indices ledger, and the number of times alert_callback
has been invoked. -/
structure DetectorState where
  seismographs : List (Option (List Int))
  confirmed_peak_indices : List Int
  alerts : Nat
  deriving DecidableEq

/-- The state right after __init__ (lines 25-30): seismograph_count
empty channels and an empty ledger. -/
def initState (seismograph_count : Nat) : DetectorState :=
  { seismographs := List.replicate seismograph_count none,
    confirmed_peak_indices := [],
    alerts := 0 }

/-- Python list index normalisation: a negative index counts from the
end of the list; the result is none when the index is out of range
(an IndexError at the call site). -/
def pyNorm (n : Nat) (i : Int) : Option Nat :=
  let j := if i < 0 then i + n else i
  if 0 ≤ j ∧ j < n then some j.toNat else none

/-- The Python list subscript xs[i], as in self.seismographs[id]. -/
def pyListGet {α : Type u} (xs : List α) (i : Int) : Except PyError α :=
  match pyNorm xs.length i with
  | some j =>
    if h : j < xs.length then .ok (xs.get ⟨j, h⟩) else .error .IndexError
  | none => .error .IndexError

/-- The Python list subscript assignment xs[i] = v.  In the translated
code it is only evaluated after a successful read of the same index, so
the out-of-range case (which would raise) is left as the identity. -/
def pyListSet {α : Type u} (xs : List α) (i : Int) (v : α) : List α :=
  match pyNorm xs.length i with
  | some j => xs.set j v
  | none => xs

/-- Truthiness of the channel slot in the test on line 39.  None is
falsy; a numpy array is falsy when empty, has the truth value of its
element when it has exactly one element, and raises ValueError (truth
value of an array with more than one element is ambiguous) otherwise. -/
def truthyChannel : Option (List Int) → Except PyError Bool
  | none => .ok false
  | some [] => .ok false
  | some [x] => .ok (decide (x ≠ 0))
  | some (_ :: _ :: _) => .error .ValueError

/-- np.concatenate(self.seismographs[id], samples) as written on line
40: the second array is passed positionally as the axis argument, which
is a misuse.  A multi-element axis array raises TypeError (only integer
scalar arrays can be converted to a scalar index); a single-element axis
array converts to a scalar, and np.concatenate is then applied to the
0-d elements of the stored 1-D array, raising ValueError
(zero-dimensional arrays cannot be concatenated).  Either way the call
raises and no concatenated array is ever produced. -/
def npConcatenateMisuse (_stored samples : List Int) : Except PyError (List Int) :=
  if samples.length = 1 then .error .ValueError else .error .TypeError

/-- numpy integer indexing samples[i] for a nonnegative index, as used
with the indices returned by find_peaks_cwt. -/
def npGet {α : Type u} (xs : List α) (i : Nat) : Except PyError α :=
  if h : i < xs.length then .ok (xs.get ⟨i, h⟩) else .error .IndexError

/-- Python max(xs): raises ValueError on an empty sequence. -/
def pyMax : List Int → Except PyError Int
  | [] => .error .ValueError
  | x :: rest => .ok (rest.foldl max x)

/-- Python xs.index(v): position of the first occurrence, ValueError
when absent. -/
def pyIndexOf : List Int → Int → Except PyError Nat
  | [], _ => .error .ValueError
  | x :: rest, v =>
    if x = v then .ok 0
    else
      match pyIndexOf rest v with
      | .error e => .error e
      | .ok n => .ok (n + 1)

/-- Left-to-right evaluation of a Python list comprehension whose body
can raise: stops at the first exception. -/
def mapExcept {α : Type u} {β : Type u} (f : α → Except PyError β) :
    List α → Except PyError (List β)
  | [] => .ok []
  | x :: rest =>
    match f x with
    | .error e => .error e
    | .ok y =>
      match mapExcept f rest with
      | .error e => .error e
      | .ok ys => .ok (y :: ys)

/-- The recursive call self.peak_detect(samples[i]) on line 55 applied
to a scalar element of a 1-D array: a numpy scalar has empty shape, so
the first statement of peak_detect, samples.shape[0], raises IndexError
before anything else runs. -/
def peak_detect_on_scalar (_v : Int) : Except PyError Nat :=
  .error .IndexError

/-- The [0] subscript applied on line 55 to the value of the recursive
call; an integer is not subscriptable (TypeError).  Never reached,
because the recursive call itself always raises first. -/
def pySubscript (_r : Nat) (_i : Nat) : Except PyError Nat :=
  .error .TypeError

/-- peak_detect (lines 48-58).  dim is samples.shape[0], which for the
1-D arrays the detector passes is the LENGTH of the array, not its
number of dimensions; so the apply-function branch only runs on a
single-sample array, and any longer array takes the recurse branch,
whose elements are scalars. -/
def peak_detect (cfg : Config) (samples : List Int) : Except PyError Nat :=
  let dim := samples.length
  let hour := cfg.sample_rate * 60 * 60
  let peak_inds_or_err : Except PyError (List Nat) :=
    if dim = 1 then .ok (cfg.cwt samples hour)
    else
      mapExcept (fun v =>
        match peak_detect_on_scalar v with
        | .error e => .error e
        | .ok r => pySubscript r 0) samples
  match peak_inds_or_err with
  | .error e => .error e
  | .ok peak_inds =>
    match mapExcept (fun i => npGet samples i) peak_inds with
    | .error e => .error e
    | .ok peaks =>
      match pyMax peaks with
      | .error e => .error e
      | .ok m =>
        match pyIndexOf peaks m with
        | .error e => .error e
        | .ok j => npGet peak_inds j

/-- is_peak (lines 63-70): the cross-channel corroboration test is a
stub that returns False unconditionally (the source comments it was not
implemented). -/
def is_peak (_seis : Option (List Int)) (_peak_index : Int) : Bool :=
  false

/-- The trailing slice hist[-month_window_size:] of line 76.  Python
slicing with a negative start clips to the head of the list; when
month_window_size is 0 (sample_rate 0) the start -0 is 0 and the slice
is the whole list. -/
def lastWindow (xs : List Int) (w : Nat) : List Int :=
  if w = 0 then xs else xs.drop (xs.length - w)

/-- The loop of lines 83-88: true_peak starts True and is cleared (with
a break) at the first seismograph for which is_peak fails; the final
value is the conjunction of is_peak over ALL seismographs, the
triggering one included. -/
def consensusLoop (seismos : List (Option (List Int))) (peak_index : Int) : Bool :=
  seismos.all (fun seis => is_peak seis peak_index)

/-- peak_index as computed on line 79: len(samples) - month_window_size
+ reverse_peak_index, where samples is the ALREADY-SLICED trailing
window of the channel history. -/
def check_peak_index (cfg : Config) (hist : List Int) (reverse_peak_index : Nat) : Int :=
  ((lastWindow hist (month_window_size cfg)).length : Int)
    - (month_window_size cfg : Int) + reverse_peak_index

/-- check_for_quake (lines 72-97).  Returns the state after the call
and the exception it raises, if any.  Subscripting None (a channel that
was never written) with a slice raises TypeError. -/
def check_for_quake (cfg : Config) (st : DetectorState) (seismograph_id : Int) :
    DetectorState × Option PyError :=
  match pyListGet st.seismographs seismograph_id with
  | .error e => (st, some e)
  | .ok none => (st, some .TypeError)
  | .ok (some hist) =>
    let samples := lastWindow hist (month_window_size cfg)
    match peak_detect cfg samples with
    | .error e => (st, some e)
    | .ok reverse_peak_index =>
      let peak_index := check_peak_index cfg hist reverse_peak_index
      if peak_index ∈ st.confirmed_peak_indices then
        (st, none)
      else if consensusLoop st.seismographs peak_index then
        ({ st with
            alerts := st.alerts + 1,
            confirmed_peak_indices := st.confirmed_peak_indices ++ [peak_index] },
          none)
      else
        (st, none)

/-- Writing self.seismographs[seismograph_id] = v (lines 40 and 43),
after a successful read of the same subscript. -/
def setChannel (st : DetectorState) (seismograph_id : Int) (v : Option (List Int)) :
    DetectorState :=
  { st with seismographs := pyListSet st.seismographs seismograph_id v }

/-- new_samples (lines 33-45): the truth test on the channel slot, then
either the (misused) concatenation or the initialising assignment, then
check_for_quake on the same channel. -/
def new_samples (cfg : Config) (st : DetectorState) (seismograph_id : Int)
    (samples : List Int) : DetectorState × Option PyError :=
  match pyListGet st.seismographs seismograph_id with
  | .error e => (st, some e)
  | .ok entry =>
    match truthyChannel entry with
    | .error e => (st, some e)
    | .ok true =>
      match npConcatenateMisuse (entry.getD []) samples with
      | .error e => (st, some e)
      | .ok concatenated =>
        check_for_quake cfg (setChannel st seismograph_id (some concatenated))
          seismograph_id
    | .ok false =>
      check_for_quake cfg (setChannel st seismograph_id (some samples))
        seismograph_id

/-- A sequence of ingestion calls against one detector: each call may
raise, the caller catches the exception and goes on feeding data, and
the state mutated before the exception persists. -/
def runCalls (cfg : Config) : DetectorState → List (Int × List Int) → DetectorState
  | st, [] => st
  | st, (seismograph_id, samples) :: rest =>
    runCalls cfg (new_samples cfg st seismograph_id samples).1 rest

/-- Modelled from the spec (sections 3 and 4.1): the absolute sample
index of a peak at offset reverse_peak_index within the trailing window
of a channel whose full history is hist — the running total of samples
preceding the first element of the window, plus the offset. -/
def spec_absolute_index (cfg : Config) (hist : List Int) (reverse_peak_index : Nat) : Int :=
  ((hist.length - (lastWindow hist (month_window_size cfg)).length : Nat) : Int)
    + reverse_peak_index

/-- A concrete configuration: 1 Hz, and find_peaks_cwt finds no ridge
lines anywhere (flat data). -/
def cfgFlat : Config :=
  { sample_rate := 1, cwt := fun _ _ => [] }

/-- A concrete configuration: 1 Hz, and find_peaks_cwt reports index 0
as the peak of any single-sample window (a pulse right at the window)
and nothing elsewhere. -/
def cfgPulse : Config :=
  { sample_rate := 1, cwt := fun s _ => if s.length = 1 then [0] else [] }

/-- A concrete one-channel state whose channel already holds the history
[1] (reached by a first ingestion of [1], whose quake check raised). -/
def stOne : DetectorState :=
  { seismographs := [some [1]], confirmed_peak_indices := [], alerts := 0 }

/-- A concrete one-channel state whose channel holds the history [0, 0]. -/
def stTwoZeros : DetectorState :=
  { seismographs := [some [0, 0]], confirmed_peak_indices := [], alerts := 0 }

/-- A concrete one-channel state whose ledger already records the peak
index that the code attributes to the single-sample window [5] at 1 Hz. -/
def stDup : DetectorState :=
  { seismographs := [some [5]], confirmed_peak_indices := [-2591999], alerts := 0 }

theorem pyNorm_lt {n : Nat} {i : Int} {j : Nat} (h : pyNorm n i = some j) : j < n := by
  by_cases hi : i < 0 <;> simp only [pyNorm, hi, if_true, if_false] at h <;>
    split at h <;> rename_i hc <;> first
      | (injection h with h; omega)
      | cases h

theorem pyListGet_ok_ne_nil {α : Type u} {xs : List α} {i : Int} {a : α}
    (h : pyListGet xs i = .ok a) : xs ≠ [] := by
  unfold pyListGet at h
  cases hn : pyNorm xs.length i with
  | none => rw [hn] at h; cases h
  | some j =>
    have hj : j < xs.length := pyNorm_lt hn
    intro hnil
    rw [hnil] at hj
    exact absurd hj (by simp)

theorem length_pyListSet {α : Type u} (xs : List α) (i : Int) (v : α) :
    (pyListSet xs i v).length = xs.length := by
  unfold pyListSet
  cases pyNorm xs.length i <;> simp

theorem pyListGet_pyListSet_self {α : Type u} {xs : List α} {i : Int} {a : α} (v : α)
    (h : pyListGet xs i = .ok a) :
    pyListGet (pyListSet xs i v) i = .ok v := by
  cases hn : pyNorm xs.length i with
  | none => simp only [pyListGet, hn] at h; cases h
  | some j =>
    have hj : j < xs.length := pyNorm_lt hn
    have hset : pyListSet xs i v = xs.set j v := by
      simp only [pyListSet, hn]
    have hj2 : j < (xs.set j v).length := by
      simpa using hj
    rw [hset]
    simp only [pyListGet, List.length_set, hn, dif_pos hj]
    simp

theorem npConcatenateMisuse_ne_ok (a b c : List Int) :
    npConcatenateMisuse a b ≠ .ok c := by
  unfold npConcatenateMisuse
  split <;> simp

theorem check_for_quake_fst (cfg : Config) (st : DetectorState) (sid : Int) :
    (check_for_quake cfg st sid).1 = st := by
  cases hget : pyListGet st.seismographs sid with
  | error e => simp [check_for_quake, hget]
  | ok entry =>
    cases entry with
    | none => simp [check_for_quake, hget]
    | some hist =>
      cases hpk : peak_detect cfg (lastWindow hist (month_window_size cfg)) with
      | error e => simp [check_for_quake, hget, hpk]
      | ok r =>
        have hne : st.seismographs ≠ [] := pyListGet_ok_ne_nil hget
        obtain ⟨y, ys, hys⟩ := List.exists_cons_of_ne_nil hne
        by_cases hmem : check_peak_index cfg hist r ∈ st.confirmed_peak_indices
        · simp [check_for_quake, hget, hpk, hmem]
        · have hloop :
              consensusLoop st.seismographs (check_peak_index cfg hist r) = false := by
            rw [hys]
            simp [consensusLoop, is_peak]
          simp [check_for_quake, hget, hpk, hmem, hloop]

theorem new_samples_fst (cfg : Config) (st : DetectorState) (sid : Int)
    (samples : List Int) :
    (new_samples cfg st sid samples).1 = st ∨
    (new_samples cfg st sid samples).1 = setChannel st sid (some samples) := by
  cases hget : pyListGet st.seismographs sid with
  | error e => left; simp [new_samples, hget]
  | ok entry =>
    cases htr : truthyChannel entry with
    | error e => left; simp [new_samples, hget, htr]
    | ok b =>
      cases b with
      | true =>
        cases hcc : npConcatenateMisuse (entry.getD []) samples with
        | error e => left; simp [new_samples, hget, htr, hcc]
        | ok c => exact absurd hcc (npConcatenateMisuse_ne_ok _ _ _)
      | false =>
        right
        rw [show (new_samples cfg st sid samples).1 =
            (check_for_quake cfg (setChannel st sid (some samples)) sid).1 by
          simp [new_samples, hget, htr]]
        exact check_for_quake_fst cfg (setChannel st sid (some samples)) sid

theorem new_samples_preserves (cfg : Config) (st : DetectorState) (sid : Int)
    (samples : List Int) :
    (new_samples cfg st sid samples).1.alerts = st.alerts ∧
    (new_samples cfg st sid samples).1.confirmed_peak_indices =
      st.confirmed_peak_indices := by
  rcases new_samples_fst cfg st sid samples with h | h <;> rw [h] <;>
    exact ⟨rfl, rfl⟩

theorem runCalls_preserves (cfg : Config) (calls : List (Int × List Int)) :
    ∀ st : DetectorState,
      (runCalls cfg st calls).alerts = st.alerts ∧
      (runCalls cfg st calls).confirmed_peak_indices = st.confirmed_peak_indices := by
  induction calls with
  | nil => intro st; exact ⟨rfl, rfl⟩
  | cons c rest ih =>
    intro st
    obtain ⟨ha, hc⟩ := ih (new_samples cfg st c.1 c.2).1
    obtain ⟨ha2, hc2⟩ := new_samples_preserves cfg st c.1 c.2
    exact ⟨by rw [runCalls, ha, ha2], by rw [runCalls, hc, hc2]⟩

theorem peak_detect_len_two (cfg : Config) (a b : Int) (rest : List Int) :
    peak_detect cfg (a :: b :: rest) = .error .IndexError := by
  unfold peak_detect
  simp [mapExcept, peak_detect_on_scalar]

theorem lastWindow_length_ge_two (cfg : Config) (xs : List Int)
    (h : 2 ≤ xs.length) :
    2 ≤ (lastWindow xs (month_window_size cfg)).length := by
  unfold lastWindow
  split
  · exact h
  · rename_i hw
    have hbig : 2 ≤ month_window_size cfg := by
      unfold month_window_size at hw ⊢
      rcases Nat.eq_zero_or_pos cfg.sample_rate with h0 | h1
      · exact absurd (by rw [h0]) hw
      · calc 2 ≤ 30 * 24 * 60 * 60 * 1 := by norm_num
          _ ≤ 30 * 24 * 60 * 60 * cfg.sample_rate :=
            Nat.mul_le_mul_left _ h1
    rw [List.length_drop]
    omega

theorem peak_detect_len_two_of_le (cfg : Config) (samples : List Int)
    (h : 2 ≤ samples.length) :
    peak_detect cfg samples = .error .IndexError := by
  match samples, h with
  | a :: b :: rest, _ => exact peak_detect_len_two cfg a b rest

/-- Claim C1: the spec asks that a synthetic shared pulse injected at the
same absolute time into all channels make the detector invoke the alert
sink exactly once.  The code never does: with two 1 Hz channels and
find_peaks_cwt reporting the pulse at offset 0 of each single-sample
window, a candidate peak is found on each channel, yet after feeding the
pulse to both channels the alert callback has been invoked zero times
(the stubbed is_peak makes the unanimity loop fail) and nothing is
recorded. -/
theorem C1_shared_pulse_no_alert :
    peak_detect cfgPulse [5] = .ok 0 ∧
    (runCalls cfgPulse (initState 2) [(0, [5]), (1, [5])]).alerts = 0 ∧
    (runCalls cfgPulse (initState 2) [(0, [5]), (1, [5])]).confirmed_peak_indices
      = [] := by
  refine ⟨by decide, by decide, by decide⟩

/-- Claim C2: for every detector constructed with seismograph_count >= 1
and every sequence of ingestion calls, the alert sink is never invoked
and the set of confirmed peak indices stays empty, because the
per-channel corroboration test is_peak returns false for every channel
(the triggering channel included), so the unanimity loop always fails. -/
theorem C2_never_alerts (cfg : Config) (n : Nat) (_hn : 1 ≤ n)
    (calls : List (Int × List Int)) :
    (∀ seis peak_index, is_peak seis peak_index = false) ∧
    (runCalls cfg (initState n) calls).alerts = 0 ∧
    (runCalls cfg (initState n) calls).confirmed_peak_indices = [] := by
  obtain ⟨ha, hc⟩ := runCalls_preserves cfg calls (initState n)
  exact ⟨fun _ _ => rfl, by rw [ha]; rfl, by rw [hc]; rfl⟩

theorem C2_never_alerts_witness :
    1 ≤ 1 ∧
    ((∀ seis peak_index, is_peak seis peak_index = false) ∧
      (runCalls cfgFlat (initState 1) [(0, [1, 2])]).alerts = 0 ∧
      (runCalls cfgFlat (initState 1) [(0, [1, 2])]).confirmed_peak_indices = []) :=
  ⟨by decide, C2_never_alerts cfgFlat 1 (by decide) [(0, [1, 2])]⟩

/-- Claim C3: the spec asks that appending a batch to a channel with
non-empty history extend the history to old ++ new.  The code never
produces old ++ new: the call either raises at the ndarray truth test of
line 39 or inside the misused np.concatenate of line 40 (history left
unchanged), or, when the single stored sample is 0 (a falsy array), it
silently overwrites the history with the new batch. -/
theorem C3_append_never_extends (cfg : Config) (st : DetectorState) (sid : Int)
    (hist samples : List Int)
    (hget : pyListGet st.seismographs sid = .ok (some hist))
    (hh : hist ≠ []) (hs : samples ≠ []) :
    pyListGet (new_samples cfg st sid samples).1.seismographs sid ≠
      .ok (some (hist ++ samples)) := by
  rcases new_samples_fst cfg st sid samples with h | h <;> rw [h]
  · rw [hget]
    intro hc
    injection hc with hc
    injection hc with hc
    have hlen := congrArg List.length hc
    rw [List.length_append] at hlen
    exact hs (List.length_eq_zero.mp (by omega))
  · show pyListGet (pyListSet st.seismographs sid (some samples)) sid ≠ _
    rw [pyListGet_pyListSet_self (some samples) hget]
    intro hc
    injection hc with hc
    injection hc with hc
    have hlen := congrArg List.length hc
    rw [List.length_append] at hlen
    exact hh (List.length_eq_zero.mp (by omega))

theorem C3_append_never_extends_witness :
    pyListGet stOne.seismographs 0 = .ok (some [1]) ∧
    ([1] : List Int) ≠ [] ∧ ([2, 3] : List Int) ≠ [] ∧
    pyListGet (new_samples cfgFlat stOne 0 [2, 3]).1.seismographs 0 ≠
      .ok (some ([1] ++ [2, 3])) :=
  ⟨by decide, by decide, by decide,
    C3_append_never_extends cfgFlat stOne 0 [1] [2, 3] (by decide) (by decide)
      (by decide)⟩

/-- Claim C4: for every one-dimensional sample array with at least two
elements, peak_detect does not return a peak index normally: the dim = 1
test of line 52 checks samples.shape[0], the LENGTH of the window, so
any real window takes the recursive branch, which calls peak_detect on
scalar elements and raises IndexError; hence check_for_quake raises on
any window of two or more samples. -/
theorem C4_peak_detect_crashes (cfg : Config) (samples : List Int)
    (h2 : 2 ≤ samples.length) :
    peak_detect cfg samples = .error .IndexError ∧
    ∀ (st : DetectorState) (sid : Int) (hist : List Int),
      pyListGet st.seismographs sid = .ok (some hist) →
      lastWindow hist (month_window_size cfg) = samples →
      check_for_quake cfg st sid = (st, some .IndexError) := by
  refine ⟨peak_detect_len_two_of_le cfg samples h2, ?_⟩
  intro st sid hist hget hwin
  have hpk : peak_detect cfg (lastWindow hist (month_window_size cfg)) =
      .error .IndexError := by
    rw [hwin]
    exact peak_detect_len_two_of_le cfg samples h2
  simp [check_for_quake, hget, hpk]

theorem C4_peak_detect_crashes_witness :
    2 ≤ ([0, 0] : List Int).length ∧
    peak_detect cfgFlat [0, 0] = .error .IndexError ∧
    check_for_quake cfgFlat stTwoZeros 0 = (stTwoZeros, some .IndexError) :=
  ⟨by decide,
    (C4_peak_detect_crashes cfgFlat [0, 0] (by decide)).1,
    (C4_peak_detect_crashes cfgFlat [0, 0] (by decide)).2 stTwoZeros 0 [0, 0]
      (by decide) (by decide)⟩

/-- Claim C5: the spec asks that the index attributed to a detected peak
be its absolute sample index.  On line 79 the code computes
len(samples) - month_window_size + reverse_peak_index over the
ALREADY-SLICED window: for a 1 Hz channel whose full history is the
single sample [5], with the detected peak at window offset 0, the code
attributes -2591999 while the absolute sample index of that peak is 0. -/
theorem C5_attributed_index_not_absolute :
    peak_detect cfgPulse (lastWindow [5] (month_window_size cfgPulse)) = .ok 0 ∧
    check_peak_index cfgPulse [5] 0 = -2591999 ∧
    spec_absolute_index cfgPulse [5] 0 = 0 ∧
    check_peak_index cfgPulse [5] 0 ≠ spec_absolute_index cfgPulse [5] 0 := by
  refine ⟨by decide, by decide, by decide, by decide⟩

/-- Claim C6: the spec asks new_samples to fail with InvalidChannelId for
an out-of-range channel_id and with InvalidInput for empty samples, in
both cases mutating nothing and running no quake check.  The code
validates nothing: channel_id -1 on a two-channel detector is accepted
by Python list indexing and mutates channel 1, and an empty batch on a
fresh channel is stored and the quake check runs, raising ValueError out
of peak_detect. -/
theorem C6_no_validation :
    (new_samples cfgFlat (initState 2) (-1) [7]).1.seismographs
      = [none, some [7]] ∧
    (new_samples cfgFlat (initState 1) 0 []).1.seismographs = [some []] ∧
    (new_samples cfgFlat (initState 1) 0 []).2 = some .ValueError := by
  refine ⟨by decide, by decide, by decide⟩

/-- Claim C7: in every detector state whose confirmed_peak_indices ledger
already contains the peak index that the current window yields,
check_for_quake returns with no alert and no state change: the ledger
membership test of line 81 suppresses the duplicate before the consensus
loop runs. -/
theorem C7_duplicate_suppressed (cfg : Config) (st : DetectorState) (sid : Int)
    (hist : List Int) (r : Nat)
    (hget : pyListGet st.seismographs sid = .ok (some hist))
    (hpk : peak_detect cfg (lastWindow hist (month_window_size cfg)) = .ok r)
    (hmem : check_peak_index cfg hist r ∈ st.confirmed_peak_indices) :
    check_for_quake cfg st sid = (st, none) := by
  simp [check_for_quake, hget, hpk, hmem]

theorem C7_duplicate_suppressed_witness :
    pyListGet stDup.seismographs 0 = .ok (some [5]) ∧
    peak_detect cfgPulse (lastWindow [5] (month_window_size cfgPulse)) = .ok 0 ∧
    check_peak_index cfgPulse [5] 0 ∈ stDup.confirmed_peak_indices ∧
    check_for_quake cfgPulse stDup 0 = (stDup, none) :=
  ⟨by decide, by decide, by decide,
    C7_duplicate_suppressed cfgPulse stDup 0 [5] 0 (by decide) (by decide)
      (by decide)⟩

/-- Claim C8: the spec asks that a window in which no position clears the
noise floor yield a no-peak outcome rather than an error.  In the code,
whenever find_peaks_cwt returns no peaks the call raises: max() on the
empty peak list raises ValueError for windows of length zero or one, and
longer windows raise IndexError in the recursion even earlier; there is
no non-error no-peak outcome. -/
theorem C8_no_peak_is_error (cfg : Config) (samples : List Int)
    (hcwt : cfg.cwt samples (cfg.sample_rate * 60 * 60) = []) :
    ∃ e, peak_detect cfg samples = .error e := by
  match samples with
  | [] => exact ⟨.ValueError, by simp [peak_detect, mapExcept, pyMax]⟩
  | [x] => exact ⟨.ValueError, by simp [peak_detect, hcwt, mapExcept, pyMax]⟩
  | a :: b :: rest => exact ⟨.IndexError, peak_detect_len_two cfg a b rest⟩

theorem C8_no_peak_is_error_witness :
    cfgFlat.cwt [0] (cfgFlat.sample_rate * 60 * 60) = [] ∧
    ∃ e, peak_detect cfgFlat [0] = .error e :=
  ⟨rfl, C8_no_peak_is_error cfgFlat [0] rfl⟩

/-- Claim C9: the spec asks that ingestion on a channel with zero history
terminate without error before any consensus check.  In the code, the
first ingestion of a batch of two or more samples on a fresh channel
raises IndexError out of peak_detect (though indeed no alert fires and
no corroboration is attempted). -/
theorem C9_fresh_channel_raises (cfg : Config) (st : DetectorState) (sid : Int)
    (samples : List Int)
    (hget : pyListGet st.seismographs sid = .ok none)
    (hlen : 2 ≤ samples.length) :
    (new_samples cfg st sid samples).2 = some .IndexError ∧
    (new_samples cfg st sid samples).1.alerts = st.alerts := by
  have hget1 : pyListGet (pyListSet st.seismographs sid (some samples)) sid =
      .ok (some samples) := pyListGet_pyListSet_self (some samples) hget
  have hw : 2 ≤ (lastWindow samples (month_window_size cfg)).length :=
    lastWindow_length_ge_two cfg samples hlen
  have hpk : peak_detect cfg (lastWindow samples (month_window_size cfg)) =
      .error .IndexError := peak_detect_len_two_of_le cfg _ hw
  constructor
  · simp [new_samples, hget, truthyChannel, setChannel, check_for_quake, hget1, hpk]
  · exact (new_samples_preserves cfg st sid samples).1

theorem C9_fresh_channel_raises_witness :
    pyListGet (initState 1).seismographs 0 = .ok none ∧
    2 ≤ ([0, 0] : List Int).length ∧
    (new_samples cfgFlat (initState 1) 0 [0, 0]).2 = some .IndexError ∧
    (new_samples cfgFlat (initState 1) 0 [0, 0]).1.alerts = (initState 1).alerts :=
  ⟨by decide, by decide,
    (C9_fresh_channel_raises cfgFlat (initState 1) 0 [0, 0] (by decide)
      (by decide)).1,
    (C9_fresh_channel_raises cfgFlat (initState 1) 0 [0, 0] (by decide)
      (by decide)).2⟩

/-- Claim C10: the spec asks that with a single channel corroboration be
vacuously true, so every new candidate peak be confirmed, recorded and
alerted.  In the code, the loop of lines 84-88 iterates over ALL
seismographs, so for N = 1 it consults the stubbed is_peak on the
triggering channel itself, which returns False: with a candidate peak
found at offset 0 of the single-sample window [5], the ingestion
completes without error but nothing is recorded and no alert fires. -/
theorem C10_single_channel_no_alert :
    peak_detect cfgPulse (lastWindow [5] (month_window_size cfgPulse)) = .ok 0 ∧
    (new_samples cfgPulse (initState 1) 0 [5]).2 = none ∧
    (new_samples cfgPulse (initState 1) 0 [5]).1.alerts = 0 ∧
    (new_samples cfgPulse (initState 1) 0 [5]).1.confirmed_peak_indices = [] := by
  refine ⟨by decide, by decide, by decide, by decide⟩

end EarthquakeDetection
